import Mathlib

/-!
Shallow embedding of the beep feature-extraction and dataset-assembly
pipeline (src/beep/featurize.py and src/beep/dataset.py).

Pandas tables are embedded as Lean lists of row structures; numeric
columns are rationals; machine-level exceptions (IndexError, raised
domain errors) are embedded as `Option`/`Except` results.
-/

/-! ## Run-record summary table (featurize.py, DeltaQFastCharge) -/

/-- The per-run `summary` table, as used by `DeltaQFastCharge.validate_data`:
the `cycle_index` column may be present (`some` of its values) or absent
(`none`), and `num_rows` embeds `len(summary.index)`. -/
structure Summary where
  cycle_index : Option (List Int)
  num_rows : Nat
deriving DecidableEq

/-- Embeds `pandas.Series.max()`: `none` on an empty column (NaN, which
compares false against any threshold). -/
def seriesMax : List Int → Option Int
  | [] => none
  | x :: xs => some (xs.foldl max x)

/-- Embeds `pandas.Series.min()`. -/
def seriesMin : List Int → Option Int
  | [] => none
  | x :: xs => some (xs.foldl min x)

/-- Class constant `DeltaQFastCharge.init_pred_cycle = 10`. -/
def DeltaQFastCharge.init_pred_cycle : Int := 10

/-- Class constant `DeltaQFastCharge.final_pred_cycle = 100`. -/
def DeltaQFastCharge.final_pred_cycle : Int := 100

/-- Embeds `DeltaQFastCharge.validate_data`: when the summary has a
`cycle_index` column the conditions are `max > final_pred_cycle` and
`min <= init_pred_cycle`; otherwise the single fallback condition
`len(summary.index) > final_pred_cycle`. -/
def DeltaQFastCharge.validate_data (s : Summary) : Bool :=
  match s.cycle_index with
  | some col =>
      (match seriesMax col with
       | some m => decide (DeltaQFastCharge.final_pred_cycle < m)
       | none => false) &&
      (match seriesMin col with
       | some m => decide (m ≤ DeltaQFastCharge.init_pred_cycle)
       | none => false)
  | none => decide (DeltaQFastCharge.final_pred_cycle < (s.num_rows : Int))

/-- `TrajectoryFastCharge` inherits `validate_data` from `DeltaQFastCharge`
unchanged (featurize.py defines no override on the subclass). -/
def TrajectoryFastCharge.validate_data : Summary → Bool :=
  DeltaQFastCharge.validate_data

/-- Claim C4: Delta-Q fast-charge validation (shared by inheritance with
Trajectory fast charge) accepts a run if and only if its summary's maximum
cycle index strictly exceeds 100 and its minimum cycle index is at most 10
(for summaries that carry a `cycle_index` column). -/
theorem C4_deltaq_validation (s : Summary) (col : List Int) (M m : Int)
    (h : s.cycle_index = some col) (hM : seriesMax col = some M)
    (hm : seriesMin col = some m) :
    (DeltaQFastCharge.validate_data s = true ↔ (100 < M ∧ m ≤ 10)) ∧
    TrajectoryFastCharge.validate_data s = DeltaQFastCharge.validate_data s := by
  refine ⟨?_, rfl⟩
  simp [DeltaQFastCharge.validate_data, h, hM, hm,
    DeltaQFastCharge.final_pred_cycle, DeltaQFastCharge.init_pred_cycle]

/-- Witness for C4 at the accepted boundary: a summary whose cycle index
runs from 1 to 101 (max = 101, min = 1) is accepted. -/
theorem C4_deltaq_validation_witness :
    (DeltaQFastCharge.validate_data ⟨some [1, 101], 2⟩ = true ↔
      (100 < (101 : Int) ∧ (1 : Int) ≤ 10)) ∧
    TrajectoryFastCharge.validate_data ⟨some [1, 101], 2⟩ =
      DeltaQFastCharge.validate_data ⟨some [1, 101], 2⟩ :=
  C4_deltaq_validation ⟨some [1, 101], 2⟩ [1, 101] 101 1 rfl (by decide) (by decide)

/-- Claim C10: when the summary table has no `cycle_index` column,
Delta-Q validation falls back to row counting and accepts exactly when the
number of rows strictly exceeds 100; no minimum-cycle condition is checked
(the result depends only on the row count). -/
theorem C10_fallback_row_count (s : Summary) (h : s.cycle_index = none) :
    DeltaQFastCharge.validate_data s = true ↔ 100 < s.num_rows := by
  simp only [DeltaQFastCharge.validate_data, h, DeltaQFastCharge.final_pred_cycle,
    decide_eq_true_eq]
  omega

/-- Witness for C10: a summary with 101 rows and no cycle-index column is
accepted by the fallback. -/
theorem C10_fallback_row_count_witness :
    DeltaQFastCharge.validate_data ⟨none, 101⟩ = true ↔ 100 < (101 : Nat) :=
  C10_fallback_row_count ⟨none, 101⟩ rfl

/-! ## Diagnostic tables (featurize.py, DiagnosticCyclesFeatures) -/

/-- A row of the `diagnostic_interpolated` table, with the columns read by
`check_relaxation_features_viable`. -/
structure DiagRow where
  cycle_type : String
  cycle_index : Int
  step_index : Int
  step_index_counter : Int
deriving DecidableEq

/-- A row of the `diagnostic_summary` table, with the columns read by
`DiagnosticCyclesFeatures.validate_data` and `DiagnosticProperties`. -/
structure DiagSummaryRow where
  cycle_index : Int
  cycle_type : String
  discharge_energy : Rat
  discharge_capacity : Rat
deriving DecidableEq

/-- Insertion step for ascending insertion sort. -/
def insertSorted (x : Int) : List Int → List Int
  | [] => [x]
  | y :: ys => if x ≤ y then x :: y :: ys else y :: insertSorted x ys

/-- Ascending insertion sort on integers. -/
def sortInts (l : List Int) : List Int := l.foldr insertSorted []

/-- Embeds the Python idiom `lst = list(set(xs)); lst.sort()`: the distinct
values of `xs` in ascending order. -/
def sortedUnique (l : List Int) : List Int := sortInts l.dedup

/-- Embeds one iteration of the loop in `check_relaxation_features_viable`:
for diagnostic-hppc occurrence `hppc_chosen` (0 or 1), the number of distinct
`step_index_counter` values of the relaxation step (the second distinct
`step_index`), excluding the first one; `none` embeds the IndexError raised
when the chosen occurrence or the relaxation step is absent. -/
def relaxationSegmentCount (di : List DiagRow) (hppc_chosen : Nat) : Option Nat := do
  let hppc_diag_cycles := di.filter (fun r => decide (r.cycle_type = "hppc"))
  let hppc_cycle_list := sortedUnique (hppc_diag_cycles.map (·.cycle_index))
  let chosen ← hppc_cycle_list.get? hppc_chosen
  let reg_step_list := sortedUnique
    ((hppc_diag_cycles.filter (fun r => decide (r.cycle_index = chosen))).map (·.step_index))
  let relax_step ← reg_step_list.get? 1
  let step_count_list := sortedUnique
    ((hppc_diag_cycles.filter (fun r =>
        decide (r.cycle_index = chosen) && decide (r.step_index = relax_step))).map
      (·.step_index_counter))
  pure (step_count_list.drop 1).length

/-- Embeds `DiagnosticCyclesFeatures.check_relaxation_features_viable`:
viable exactly when both the first and the second hppc occurrence carry at
least `n_soc_windows` relaxation segments. -/
def check_relaxation_features_viable (di : List DiagRow) (n_soc_windows : Nat) :
    Option Bool := do
  let c0 ← relaxationSegmentCount di 0
  let c1 ← relaxationSegmentCount di 1
  pure (decide (n_soc_windows ≤ c0) && decide (n_soc_windows ≤ c1))

/-- Class constant `DiagnosticCyclesFeatures.diagnostic_cycle_types`. -/
def diagnostic_cycle_types : List String := ["reset", "hppc", "rpt_0.2C", "rpt_1C", "rpt_2C"]

/-- Embeds Python `set(a) == set(b)` on lists of strings. -/
def setEqStr (a b : List String) : Bool :=
  a.all (fun x => decide (x ∈ b)) && b.all (fun x => decide (x ∈ a))

/-- The fields of a processed cycler run read by the diagnostic-cycle
feature classes. -/
structure PCRDiag where
  diagnostic_summary : List DiagSummaryRow
  diagnostic_interpolated : List DiagRow
deriving DecidableEq

/-- Embeds `DiagnosticCyclesFeatures.validate_data`: returns false on an
empty diagnostic summary; otherwise conjoins the exact-cycle-type-set check
with the relaxation-viability check. The relaxation check is evaluated
unconditionally, so its IndexError (`none`) propagates even when the
cycle-type check already failed. -/
def DiagnosticCyclesFeatures.validate_data (pcr : PCRDiag) : Option Bool :=
  if pcr.diagnostic_summary.isEmpty then some false
  else
    let typesOk := setEqStr diagnostic_cycle_types
      ((pcr.diagnostic_summary.map (·.cycle_type)).dedup)
    match check_relaxation_features_viable pcr.diagnostic_interpolated 8 with
    | some relax => some (typesOk && relax)
    | none => none

/-- Claim C5: for a run whose diagnostic-cycle-type set is not the required
vocabulary, validation is claimed to return false without raising; but on a
run with a non-empty diagnostic summary of type set only containing reset and
no hppc rows in the interpolated table, the unconditional relaxation check
hits `hppc_cycle_list[0]` on an empty list, so validation raises (embedded as
`none`) instead of returning false. -/
theorem C5_validate_raises_on_missing_hppc :
    DiagnosticCyclesFeatures.validate_data ⟨[⟨1, "reset", 1, 1⟩], []⟩ = none ∧
    setEqStr diagnostic_cycle_types
      ((([⟨1, "reset", 1, 1⟩] : List DiagSummaryRow).map (·.cycle_type)).dedup) = false := by
  constructor
  · decide
  · decide

/-- Claim C6: within its domain (both of the first two hppc occurrences and
their relaxation step present), the relaxation-viability check returns viable
exactly when both occurrences have at least 8 relaxation segments, and
not-viable exactly when either has fewer. -/
theorem C6_relaxation_viability (di : List DiagRow) (c0 c1 : Nat)
    (h0 : relaxationSegmentCount di 0 = some c0)
    (h1 : relaxationSegmentCount di 1 = some c1) :
    (check_relaxation_features_viable di 8 = some true ↔ (8 ≤ c0 ∧ 8 ≤ c1)) ∧
    (check_relaxation_features_viable di 8 = some false ↔ (c0 < 8 ∨ c1 < 8)) := by
  have honly : check_relaxation_features_viable di 8 =
      some (decide (8 ≤ c0) && decide (8 ≤ c1)) := by
    simp [check_relaxation_features_viable, h0, h1]
  constructor
  · rw [honly]
    simp
  · rw [honly]
    constructor
    · intro hfalse
      have : ¬ (decide (8 ≤ c0) && decide (8 ≤ c1)) = true := by
        simp only [Option.some_inj] at hfalse
        simp [hfalse]
      simp only [Bool.and_eq_true, decide_eq_true_eq, not_and_or, not_le] at this
      omega
    · intro hlt
      have : (decide (8 ≤ c0) && decide (8 ≤ c1)) = false := by
        rcases hlt with hlt | hlt <;> simp [Nat.not_le_of_lt hlt, Nat.not_le_of_lt hlt]
      rw [this]

/-- A concrete diagnostic-interpolated table with two hppc occurrences
(cycle 1 and cycle 2), each carrying a relaxation step (step index 1)
with nine distinct step counters, so exactly 8 segments after excluding
the first. -/
def relaxDemoRun : List DiagRow :=
  [⟨"hppc", 1, 0, 0⟩] ++ (List.range 9).map (fun k => ⟨"hppc", 1, 1, (k : Int)⟩) ++
  [⟨"hppc", 2, 0, 0⟩] ++ (List.range 9).map (fun k => ⟨"hppc", 2, 1, (k : Int)⟩)

/-- Witness for C6 at the accepted boundary: exactly 8 relaxation segments
in each of the first two hppc occurrences is viable. -/
theorem C6_relaxation_viability_witness :
    check_relaxation_features_viable relaxDemoRun 8 = some true :=
  (C6_relaxation_viability relaxDemoRun 8 8 (by decide) (by decide)).1.mpr
    ⟨le_refl 8, le_refl 8⟩

/-! ## DiagnosticProperties (featurize.py) -/

/-- Embeds column access `row[metric]` for the two quantities looped over by
`DiagnosticProperties.features_from_processed_cycler_run`. -/
def metricOf (metric : String) (r : DiagSummaryRow) : Rat :=
  if metric = "discharge_energy" then r.discharge_energy else r.discharge_capacity

/-- Embeds `DiagnosticProperties.get_fractional_quantity_remaining`: restrict
the diagnostic summary to rows of the requested cycle type with cycle index
strictly above 100, and divide the metric by its value on the first row of
the whole diagnostic summary (`iloc[0]`, an IndexError — `none` — when the
summary is empty). -/
def DiagnosticProperties.get_fractional_quantity_remaining
    (ds : List DiagSummaryRow) (metric diag_cycle_type : String) :
    Option (List (Int × Rat)) :=
  match ds.head? with
  | none => none
  | some fst =>
    some ((ds.filter (fun r =>
        decide (r.cycle_type = diag_cycle_type) && decide (100 < r.cycle_index))).map
      (fun r => (r.cycle_index, metricOf metric r / metricOf metric fst)))

/-- A row of the `DiagnosticProperties` feature table: cycle index,
fractional metric value, and the cycle-type and metric tags. -/
structure FeatRow where
  cycle_index : Int
  fractional_metric : Rat
  cycle_type : String
  metric : String
deriving DecidableEq

/-- Embeds `DiagnosticProperties.features_from_processed_cycler_run`: for
each quantity in {discharge_energy, discharge_capacity} and each distinct
cycle type of the diagnostic summary, the fractional-quantity rows tagged
with the cycle type and the quantity. (When the summary is empty the type
loop is empty, so the `none` branch of the inner call is unreachable.) -/
def DiagnosticProperties.features_from_processed_cycler_run
    (ds : List DiagSummaryRow) : List FeatRow :=
  let cycle_types := (ds.map (·.cycle_type)).dedup
  (["discharge_energy", "discharge_capacity"]).flatMap fun quantity =>
    cycle_types.flatMap fun cycle_type =>
      match DiagnosticProperties.get_fractional_quantity_remaining ds quantity cycle_type with
      | some rows => rows.map (fun p => ⟨p.1, p.2, cycle_type, quantity⟩)
      | none => []

/-- Claim C9: for each quantity in {discharge energy, discharge capacity}
and each diagnostic cycle type present, the Diagnostic-properties extractor
emits one row per diagnostic occurrence of that type past cycle 100, whose
value is the occurrence's quantity divided by the quantity at the first
diagnostic occurrence, tagged with the quantity and cycle-type labels. -/
theorem C9_fractional_properties (ds : List DiagSummaryRow) (fst : DiagSummaryRow)
    (h : ds.head? = some fst) (fr : FeatRow) :
    fr ∈ DiagnosticProperties.features_from_processed_cycler_run ds ↔
      ((fr.metric = "discharge_energy" ∨ fr.metric = "discharge_capacity") ∧
       ∃ r ∈ ds, r.cycle_type = fr.cycle_type ∧ r.cycle_index = fr.cycle_index ∧
         100 < r.cycle_index ∧
         fr.fractional_metric = metricOf fr.metric r / metricOf fr.metric fst) := by
  obtain ⟨ci, fm, ct, q⟩ := fr
  simp only [DiagnosticProperties.features_from_processed_cycler_run,
    DiagnosticProperties.get_fractional_quantity_remaining, h, List.mem_flatMap,
    List.mem_map, List.mem_filter, List.mem_dedup, Bool.and_eq_true,
    decide_eq_true_eq, List.mem_cons, List.not_mem_nil, or_false]
  constructor
  · rintro ⟨quantity, hq, cycle_type, ⟨r0, hr0, hr0t⟩, p, ⟨⟨r, ⟨hr, hrt, hrgt⟩, hp⟩, heq⟩⟩
    obtain ⟨h1, h2, h3, h4⟩ := FeatRow.mk.injEq .. ▸ heq
    subst h1 h2 h3 h4
    subst hp
    exact ⟨hq, r, hr, hrt, rfl, hrgt, rfl⟩
  · rintro ⟨hq, r, hr, hrt, hci, hrgt, hval⟩
    refine ⟨q, hq, ct, ⟨r, hr, hrt⟩, (ci, fm), ⟨⟨r, ⟨hr, hrt, hrgt⟩, ?_⟩, rfl⟩⟩
    rw [hval, hci]

/-- Witness for C9: with a diagnostic summary whose first occurrence has
discharge energy 10 and whose sole post-100 reset occurrence (cycle 101) has
discharge energy 5, the feature table contains the tagged row with
fractional metric 1/2. -/
theorem C9_fractional_properties_witness :
    (⟨101, (1 : Rat)/2, "reset", "discharge_energy"⟩ : FeatRow) ∈
      DiagnosticProperties.features_from_processed_cycler_run
        [⟨1, "reset", 10, 20⟩, ⟨101, "reset", 5, 8⟩] :=
  (C9_fractional_properties [⟨1, "reset", 10, 20⟩, ⟨101, "reset", 5, 8⟩]
      ⟨1, "reset", 10, 20⟩ rfl ⟨101, (1 : Rat)/2, "reset", "discharge_energy"⟩).mpr
    ⟨Or.inl rfl, ⟨101, "reset", 5, 8⟩, by decide, rfl, rfl, by decide,
      by simp only [metricOf]; norm_num⟩

/-! ## Peak-fit dQdV features (featurize.py, get_rpt_dQdV_features) -/

/-- Embeds the peak-count selection chain at the top of
`DiagnosticCyclesFeatures.get_rpt_dQdV_features` (charge_y_n is 1 for
charge and 0 for discharge); the final branch embeds the raised error for
any unrecognized rpt label. -/
def max_nr_peaks (rpt_type : String) (charge_y_n : Nat) : Except String Nat :=
  if rpt_type = "rpt_0.2C" ∧ charge_y_n = 1 then .ok 4
  else if rpt_type = "rpt_0.2C" ∧ charge_y_n = 0 then .ok 4
  else if rpt_type = "rpt_1C" ∧ charge_y_n = 1 then .ok 4
  else if rpt_type = "rpt_1C" ∧ charge_y_n = 0 then .ok 3
  else if rpt_type = "rpt_2C" ∧ charge_y_n = 1 then .ok 4
  else if rpt_type = "rpt_2C" ∧ charge_y_n = 0 then .ok 3
  else .error (rpt_type ++ " is not a valid rpt cycle")

/-- Embeds `DiagnosticCyclesFeatures.get_rpt_dQdV_features`. The external
helper `featurizer_helpers.generate_dQdV_peak_fits` (not part of this
module) is passed in as a function from (diagnostic occurrence, charge
direction, rpt type, maximum peak count) to the list of fitted parameters;
the result normalizes the later fit to the reference fit parameter-wise as
`1 + (later - ref) / ref`. -/
def get_rpt_dQdV_features (generate_dQdV_peak_fits : Nat → Nat → String → Nat → List Rat)
    (diag_ref diag_nr charge_y_n : Nat) (rpt_type : String) : Except String (List Rat) :=
  match max_nr_peaks rpt_type charge_y_n with
  | .error e => .error e
  | .ok mp =>
    let peak_fit_df_ref := generate_dQdV_peak_fits diag_ref charge_y_n rpt_type mp
    let peak_fit_df := generate_dQdV_peak_fits diag_nr charge_y_n rpt_type mp
    .ok (List.zipWith (fun later ref => 1 + (later - ref) / ref) peak_fit_df peak_fit_df_ref)

/-- Claim C7: the peak-fit dQdV feature selects the maximum peak count from
the rpt-type/charge-direction table (4 for rpt_0.2C charge and discharge,
rpt_1C charge and rpt_2C charge; 3 for rpt_1C discharge and rpt_2C
discharge); on any recognized combination it returns the later fit
normalized to the reference as `1 + (later - ref) / ref` per fitted
parameter; and on any rpt label outside the three recognized ones it returns
the raised domain error, which no caller swallows. -/
theorem C7_rpt_dqdv_features (g : Nat → Nat → String → Nat → List Rat)
    (diag_ref diag_nr charge_y_n : Nat) (rpt_type : String) :
    (max_nr_peaks "rpt_0.2C" 1 = .ok 4 ∧ max_nr_peaks "rpt_0.2C" 0 = .ok 4 ∧
     max_nr_peaks "rpt_1C" 1 = .ok 4 ∧ max_nr_peaks "rpt_1C" 0 = .ok 3 ∧
     max_nr_peaks "rpt_2C" 1 = .ok 4 ∧ max_nr_peaks "rpt_2C" 0 = .ok 3) ∧
    (∀ mp, max_nr_peaks rpt_type charge_y_n = .ok mp →
       get_rpt_dQdV_features g diag_ref diag_nr charge_y_n rpt_type =
         .ok (List.zipWith (fun later ref => 1 + (later - ref) / ref)
           (g diag_nr charge_y_n rpt_type mp) (g diag_ref charge_y_n rpt_type mp))) ∧
    (rpt_type ∉ ["rpt_0.2C", "rpt_1C", "rpt_2C"] →
       get_rpt_dQdV_features g diag_ref diag_nr charge_y_n rpt_type =
         .error (rpt_type ++ " is not a valid rpt cycle")) := by
  refine ⟨⟨rfl, rfl, rfl, rfl, rfl, rfl⟩, ?_, ?_⟩
  · intro mp hmp
    simp [get_rpt_dQdV_features, hmp]
  · intro hout
    simp only [List.mem_cons, List.not_mem_nil, or_false, not_or] at hout
    obtain ⟨h1, h2, h3⟩ := hout
    simp [get_rpt_dQdV_features, max_nr_peaks, h1, h2, h3]

/-- A concrete stand-in for the external peak-fit helper, used to witness
the peak-fit feature claim. -/
def gDemoPeakFits : Nat → Nat → String → Nat → List Rat :=
  fun d _ _ _ => if d = 0 then [2, 4] else [3, 6]

/-- Witness for C7: on the recognized rpt_1C discharge combination the
feature is the normalized later fit, and on the unrecognized label bogus the
domain error is returned. -/
theorem C7_rpt_dqdv_features_witness :
    get_rpt_dQdV_features gDemoPeakFits 0 1 0 "rpt_1C" =
      .ok (List.zipWith (fun later ref => 1 + (later - ref) / ref)
        (gDemoPeakFits 1 0 "rpt_1C" 3) (gDemoPeakFits 0 0 "rpt_1C" 3)) ∧
    get_rpt_dQdV_features gDemoPeakFits 0 1 0 "bogus" =
      .error ("bogus" ++ " is not a valid rpt cycle") :=
  ⟨(C7_rpt_dqdv_features gDemoPeakFits 0 1 0 "rpt_1C").2.1 3 rfl,
   (C7_rpt_dqdv_features gDemoPeakFits 0 1 0 "bogus").2.2 (by decide)⟩

/-! ## Dataset assembly (dataset.py, BeepDataset) -/

/-- A row of a per-variant feature table or of the assembled dataset: the
run identifier held in the `file` column plus the remaining named numeric
columns. -/
structure DRow where
  file : Nat
  cols : List (String × Rat)
deriving DecidableEq

/-- Embeds one step of `reduce(lambda x, y: pd.merge(x, y, on='file',
how='inner'), ...)`: an inner join on the `file` column, concatenating the
non-key columns of every matching pair of rows. -/
def BeepDataset.mergeInner (x y : List DRow) : List DRow :=
  x.flatMap fun rx => (y.filter fun ry => decide (ry.file = rx.file)).map
    fun ry => ⟨rx.file, rx.cols ++ ry.cols⟩

/-- Embeds the join core of `BeepDataset.from_features`: the per-variant
feature tables (already loaded and row-concatenated per variant) are folded
with the inner join on `file`; `none` embeds the TypeError `reduce` raises
on an empty table list. -/
def BeepDataset.from_features : List (List DRow) → Option (List DRow)
  | [] => none
  | t :: ts => some (ts.foldl BeepDataset.mergeInner t)

theorem mem_mergeInner_file (x y : List DRow) (run : Nat) :
    (∃ row ∈ BeepDataset.mergeInner x y, row.file = run) ↔
      ((∃ row ∈ x, row.file = run) ∧ (∃ row ∈ y, row.file = run)) := by
  simp only [BeepDataset.mergeInner, List.mem_flatMap, List.mem_map, List.mem_filter,
    decide_eq_true_eq]
  constructor
  · rintro ⟨row, ⟨rx, hrx, ry, ⟨hry, hfile⟩, rfl⟩, hrun⟩
    exact ⟨⟨rx, hrx, hrun⟩, ⟨ry, hry, hfile.trans hrun⟩⟩
  · rintro ⟨⟨rx, hrx, hrxf⟩, ⟨ry, hry, hryf⟩⟩
    exact ⟨⟨rx.file, rx.cols ++ ry.cols⟩, ⟨rx, hrx, ry, ⟨hry, hryf.trans hrxf.symm⟩, rfl⟩, hrxf⟩

theorem mem_foldl_mergeInner (ts : List (List DRow)) (acc : List DRow) (run : Nat) :
    (∃ row ∈ ts.foldl BeepDataset.mergeInner acc, row.file = run) ↔
      ((∃ row ∈ acc, row.file = run) ∧ ∀ t ∈ ts, ∃ row ∈ t, row.file = run) := by
  induction ts generalizing acc with
  | nil => simp
  | cons t ts ih =>
    simp only [List.foldl_cons, ih, mem_mergeInner_file, List.mem_cons]
    constructor
    · rintro ⟨⟨ha, ht⟩, hts⟩
      exact ⟨ha, fun u hu => hu.elim (fun h => h ▸ ht) (hts u)⟩
    · rintro ⟨ha, hall⟩
      exact ⟨⟨ha, hall t (Or.inl rfl)⟩, fun u hu => hall u (Or.inr hu)⟩

/-- Claim C1: dataset assembly is an inner join on the run identifier — for
a non-empty list of per-variant feature tables, a run appears in the
assembled dataset exactly when it appears in every variant's table. -/
theorem C1_inner_join (tables : List (List DRow)) (t0 : List DRow)
    (rest : List (List DRow)) (joined : List DRow) (h : tables = t0 :: rest)
    (hj : BeepDataset.from_features tables = some joined) (run : Nat) :
    (∃ row ∈ joined, row.file = run) ↔ ∀ t ∈ tables, ∃ row ∈ t, row.file = run := by
  subst h
  have hj' : joined = rest.foldl BeepDataset.mergeInner t0 := by
    simpa [BeepDataset.from_features] using hj.symm
  subst hj'
  rw [mem_foldl_mergeInner]
  constructor
  · rintro ⟨h0, hrest⟩ t ht
    exact (List.mem_cons.mp ht).elim (fun h => h ▸ h0) (hrest t)
  · intro hall
    exact ⟨hall t0 (List.mem_cons_self t0 rest), fun t ht => hall t (List.mem_cons_of_mem t0 ht)⟩

/-- Variant A's feature table, covering runs 1, 2, 3. -/
def tableA : List DRow := [⟨1, []⟩, ⟨2, []⟩, ⟨3, []⟩]

/-- Variant B's feature table, covering runs 2, 3, 4. -/
def tableB : List DRow := [⟨2, []⟩, ⟨3, []⟩, ⟨4, []⟩]

/-- Witness for C1 at the spec's example: joining variant A over runs
{1,2,3} with variant B over runs {2,3,4} retains run 2 and drops run 4. -/
theorem C1_inner_join_witness :
    (∃ row ∈ BeepDataset.mergeInner tableA tableB, row.file = 2) ∧
    ¬ (∃ row ∈ BeepDataset.mergeInner tableA tableB, row.file = 4) := by
  have h := C1_inner_join [tableA, tableB] tableA [tableB]
    (BeepDataset.mergeInner tableA tableB) rfl rfl
  constructor
  · exact (h 2).mpr (by decide)
  · intro hex
    exact absurd ((h 4).mp hex tableA (by simp)) (by decide)

/-! ## Train/test split (dataset.py, generate_train_test_split) -/

/-- Embeds `train_cells = [x for x in self.filenames if x not in test_cells]`. -/
def BeepDataset.train_cells (filenames test_cells : List Nat) : List Nat :=
  filenames.filter (fun x => decide (x ∉ test_cells))

/-- Embeds the row mask `self.data.loc[self.data.file.isin(cells)]`. -/
def BeepDataset.locFileIsin (data : List DRow) (cells : List Nat) : List DRow :=
  data.filter (fun row => decide (row.file ∈ cells))

/-- Embeds the column projection `[..., columns]` applied to a selected row. -/
def projCols (columns : List String) (r : DRow) : List (String × Rat) :=
  r.cols.filter (fun c => decide (c.1 ∈ columns))

/-- Embeds the split-by-cell branch of `BeepDataset.generate_train_test_split`
(the guards and the four partition tables X_train, X_test, y_train, y_test).
`predictors`/`outcomes` are `none` when the caller omits them; `test_cells`
is the list drawn by `np.random.choice`, passed in since the generator is
external to the embedding. -/
def BeepDataset.generate_train_test_split (data : List DRow) (filenames : List Nat)
    (predictors outcomes : Option (List String)) (test_cells : List Nat) :
    Except String (List (List (String × Rat)) × List (List (String × Rat)) ×
                   List (List (String × Rat)) × List (List (String × Rat))) :=
  match predictors with
  | none => .error "Specify one or more predictor columns"
  | some preds =>
    match outcomes with
    | none => .error "Specify one or more outcomes"
    | some outs =>
      let tr := BeepDataset.train_cells filenames test_cells
      .ok ((BeepDataset.locFileIsin data tr).map (projCols preds),
           (BeepDataset.locFileIsin data test_cells).map (projCols preds),
           (BeepDataset.locFileIsin data tr).map (projCols outs),
           (BeepDataset.locFileIsin data test_cells).map (projCols outs))

/-- Claim C2: the split by run is leakage-free — for any run identifier
listed in `filenames` and any drawn test-cell list, every data row of that
run lands in exactly one of the train row selection or the test row
selection, never split across both. -/
theorem C2_split_no_leakage (data : List DRow) (filenames test_cells : List Nat)
    (r : Nat) (hr : r ∈ filenames) :
    (∀ row ∈ data, row.file = r →
        row ∈ BeepDataset.locFileIsin data (BeepDataset.train_cells filenames test_cells) ∧
        row ∉ BeepDataset.locFileIsin data test_cells) ∨
    (∀ row ∈ data, row.file = r →
        row ∈ BeepDataset.locFileIsin data test_cells ∧
        row ∉ BeepDataset.locFileIsin data
          (BeepDataset.train_cells filenames test_cells)) := by
  have hloc : ∀ (d : List DRow) (cells : List Nat) (row : DRow),
      row ∈ BeepDataset.locFileIsin d cells ↔ (row ∈ d ∧ row.file ∈ cells) := by
    intro d cells row
    simp [BeepDataset.locFileIsin, List.mem_filter]
  have htr : ∀ (x : Nat), x ∈ BeepDataset.train_cells filenames test_cells ↔
      (x ∈ filenames ∧ x ∉ test_cells) := by
    intro x
    simp [BeepDataset.train_cells, List.mem_filter]
  by_cases hmem : r ∈ test_cells
  · right
    intro row hrow hfile
    refine ⟨(hloc data test_cells row).mpr ⟨hrow, hfile ▸ hmem⟩, fun hc => ?_⟩
    have hin := ((htr row.file).mp ((hloc data _ row).mp hc).2).2
    exact hin (hfile ▸ hmem)
  · left
    intro row hrow hfile
    refine ⟨(hloc data _ row).mpr ⟨hrow, (htr row.file).mpr ⟨hfile ▸ hr, hfile ▸ hmem⟩⟩,
      fun hc => ?_⟩
    have hin := ((hloc data test_cells row).mp hc).2
    exact (hfile ▸ hmem) hin

/-- Witness for C2: run 1 has two data rows; with test cells {2} both rows
land in the train selection and neither in the test selection. -/
theorem C2_split_no_leakage_witness :
    (∀ row ∈ ([⟨1, []⟩, ⟨1, []⟩, ⟨2, []⟩] : List DRow), row.file = 1 →
        row ∈ BeepDataset.locFileIsin [⟨1, []⟩, ⟨1, []⟩, ⟨2, []⟩]
          (BeepDataset.train_cells [1, 2] [2]) ∧
        row ∉ BeepDataset.locFileIsin [⟨1, []⟩, ⟨1, []⟩, ⟨2, []⟩] [2]) ∨
    (∀ row ∈ ([⟨1, []⟩, ⟨1, []⟩, ⟨2, []⟩] : List DRow), row.file = 1 →
        row ∈ BeepDataset.locFileIsin [⟨1, []⟩, ⟨1, []⟩, ⟨2, []⟩] [2] ∧
        row ∉ BeepDataset.locFileIsin [⟨1, []⟩, ⟨1, []⟩, ⟨2, []⟩]
          (BeepDataset.train_cells [1, 2] [2])) :=
  C2_split_no_leakage [⟨1, []⟩, ⟨1, []⟩, ⟨2, []⟩] [1, 2] [2] 1 (by decide)

/-- Embeds Python `int(...)` applied to a rational value: truncation toward
zero. -/
def pyInt (q : Rat) : Int := if 0 ≤ q then ⌊q⌋ else ⌈q⌉

/-- Modelled from the spec: the spec's `round(test_size × total_runs)` is
Python `round`, which rounds half to even; used only to state claim C3
against the code's truncating sample size. -/
def pyRound (q : Rat) : Int :=
  if q - (⌊q⌋ : Rat) < 1/2 then ⌊q⌋
  else if (1/2 : Rat) < q - (⌊q⌋ : Rat) then ⌊q⌋ + 1
  else if ⌊q⌋ % 2 = 0 then ⌊q⌋ else ⌊q⌋ + 1

/-- Embeds the sample size `int(len(self.filenames) * test_size)` passed to
`np.random.choice`. -/
def BeepDataset.sample_size (n : Nat) (test_size : Rat) : Nat :=
  (pyInt (test_size * n)).toNat

/-- Characterizes the possible outputs of `np.random.choice(pool, k)` with
the default replace=True: any list of `k` draws from the pool. -/
def validChoice (pool : List Nat) (k : Nat) (draw : List Nat) : Prop :=
  draw.length = k ∧ ∀ x ∈ draw, x ∈ pool

/-- Counterexample to claim C3: on a dataset of 3 runs with test_size 1/2
the code draws `int(1.5) = 1` samples, so no possible draw yields
`round(1.5) = 2` distinct test cells. -/
theorem C3_test_size_counterexample :
    ¬ ∀ draw : List Nat,
        validChoice [1, 2, 3] (BeepDataset.sample_size 3 (1/2)) draw →
          (draw.dedup.length : Int) = pyRound ((1/2 : Rat) * 3) := by
  intro hall
  have hs : BeepDataset.sample_size 3 (1/2) = 1 := by
    have hq : ((1/2 : Rat) * (3 : Nat)) = 3/2 := by norm_num
    rw [BeepDataset.sample_size, hq]
    norm_num [pyInt]
  have h1 : validChoice [1, 2, 3] (BeepDataset.sample_size 3 (1/2)) [1] := by
    rw [hs]
    exact ⟨rfl, by decide⟩
  have h2 := hall [1] h1
  have h3 : pyRound ((1/2 : Rat) * 3) = 2 := by
    have hq : ((1/2 : Rat) * 3) = 3/2 := by norm_num
    rw [hq, pyRound]
    norm_num
  rw [h3] at h2
  simp at h2

/-- Claim C3 as amended: the test sample is `int(test_size × n)` draws with
replacement from the run identifiers (truncation, not rounding), so the test
set holds at most `int(test_size × n)` distinct runs, all from `filenames`,
and the train cells are exactly the filenames not sampled. -/
theorem C3_test_size_amended (filenames draw : List Nat) (test_size : Rat)
    (h : validChoice filenames (BeepDataset.sample_size filenames.length test_size) draw) :
    draw.dedup.length ≤ BeepDataset.sample_size filenames.length test_size ∧
    (∀ x ∈ draw, x ∈ filenames) ∧
    (∀ x, x ∈ BeepDataset.train_cells filenames draw ↔ (x ∈ filenames ∧ x ∉ draw)) := by
  refine ⟨?_, h.2, ?_⟩
  · calc draw.dedup.length ≤ draw.length := draw.dedup_sublist.length_le
      _ = _ := h.1
  · intro x
    simp [BeepDataset.train_cells, List.mem_filter]

/-- Witness for the amended C3: four runs, test_size 1/2, the draw [2, 2]
(with replacement) gives one distinct test cell, at most int(2.0) = 2, and
train cells {1, 3, 4}. -/
theorem C3_test_size_amended_witness :
    ([2, 2] : List Nat).dedup.length ≤
      BeepDataset.sample_size ([1, 2, 3, 4] : List Nat).length (1/2) ∧
    (∀ x ∈ ([2, 2] : List Nat), x ∈ ([1, 2, 3, 4] : List Nat)) ∧
    (∀ x, x ∈ BeepDataset.train_cells [1, 2, 3, 4] [2, 2] ↔
      (x ∈ ([1, 2, 3, 4] : List Nat) ∧ x ∉ ([2, 2] : List Nat))) :=
  C3_test_size_amended [1, 2, 3, 4] [2, 2] (1/2)
    ⟨by
      show ([2, 2] : List Nat).length = BeepDataset.sample_size 4 (1/2)
      have hq : ((1/2 : Rat) * (4 : Nat)) = 2 := by norm_num
      rw [BeepDataset.sample_size, hq]
      norm_num [pyInt]
      rfl, by decide⟩

/-- Counterexample to claim C8: an empty (but present) predictors list is
not rejected — the guard only checks for an absent argument, so the call
returns partitions (with no predictor columns) instead of raising. -/
theorem C8_empty_predictors_counterexample :
    BeepDataset.generate_train_test_split [⟨1, [("y", 1)]⟩] [1]
      (some []) (some ["y"]) [] =
      .ok ([[]], [], [[("y", (1 : Rat))]], []) := by
  rfl

/-- Claim C8 as amended: an absent (None) predictors or outcomes argument
raises the configuration error immediately, before any partitioning — for
every dataset, filename list and drawn test-cell list the result is the
error, with the predictors check first; an empty list is not rejected. -/
theorem C8_required_columns_amended (data : List DRow) (filenames : List Nat)
    (outcomes : Option (List String)) (preds : List String) (test_cells : List Nat) :
    BeepDataset.generate_train_test_split data filenames none outcomes test_cells =
      .error "Specify one or more predictor columns" ∧
    BeepDataset.generate_train_test_split data filenames (some preds) none test_cells =
      .error "Specify one or more outcomes" :=
  ⟨rfl, rfl⟩
